import Mathlib

/-!
Verification of the grievance-cell backend core.

This file gives a shallow embedding of the server-side logic of the
grievance tracking application: the pure helpers of `src/routes.ts`
(`calculateSlaDeadline`, `getAutoPriority`, `generateTrackingId`), the
relevant route handlers (`POST /api/grievances`,
`PATCH /api/grievances/:id/status`, `PATCH /api/grievances/:id/priority`,
`POST /api/grievances/:id/comments`), and the storage-layer operations of
`DatabaseStorage` (`createGrievance`, `updateGrievanceStatus`,
`updateGrievancePriority`, `getDashboardStats`, and the
`avgResolutionTime` computation of `getAnalytics`).

Modelling conventions:
* Timestamps are `Int`, in milliseconds since the epoch (`Date.getTime()`);
  a nullable timestamp column is `Option Int`.
* The grievance table is a `List Grievance` in insertion order.  An SQL
  `insert` appends; an `update ... where id = ...` maps over the list; the
  `returning()` destructure `const [row] = ...` is `List.find?` on the id.
  The `unique` constraint on `tracking_id` and the postgres enums
  `grievance_category`, `grievance_priority`, `grievance_status` declared
  in `src/schema.ts` are checked explicitly by the storage operations,
  which return `Except` like the throwing database client.
* Each route handler takes the wall-clock instant `now` at which the
  request is served (every `new Date()` inside one request is this single
  instant, and the database `defaultNow()` of the same request coincides
  with it), the authenticated user resolved by `storage.getUser`, and for
  grievance creation the stream of `nanoid(4)` segment pairs that
  successive generator calls would draw.  A handler returns
  `Except (Nat × String)` mirroring `res.status(code).json({ message })`
  on the error path.
* Notification creation (`storage.createNotification`) writes to a
  separate table that none of the verified properties mention; it is not
  threaded through the state.
* JavaScript number arithmetic in the analytics is modelled over `ℚ`, and
  `Math.round` as `jsRound x = ⌊x + 1/2⌋` (round half toward positive
  infinity), which agrees with the JavaScript semantics on these values.
-/

/-- Enum `grievance_category` from `src/schema.ts`. -/
def categoryEnum : List String :=
  ["academic", "infrastructure", "administrative", "urgent"]

/-- Enum `grievance_priority` from `src/schema.ts`. -/
def priorityEnum : List String := ["low", "medium", "high", "critical"]

/-- Enum `grievance_status` from `src/schema.ts`. -/
def statusEnum : List String :=
  ["submitted", "under_review", "assigned", "in_progress", "resolved", "closed"]

/-- A row of the `grievances` table (`src/schema.ts`, `pgTable "grievances"`). -/
structure Grievance where
  id : String
  trackingId : String
  userId : Option String
  isAnonymous : Bool
  title : String
  description : String
  category : String
  priority : String
  status : String
  isConfidential : Bool
  slaDeadline : Option Int
  createdAt : Int
  updatedAt : Int
  resolvedAt : Option Int
deriving Repr, DecidableEq

/-- A row of the `users` table, restricted to the fields the route handlers
read (`id` via `claims.sub`, `role` for authorization). -/
structure User where
  id : String
  role : String
deriving Repr, DecidableEq

/-- A row of the `comments` table (`src/schema.ts`, `pgTable "comments"`). -/
structure CommentRecord where
  id : String
  grievanceId : String
  userId : String
  content : String
  isInternal : Bool
  createdAt : Int
deriving Repr, DecidableEq

/-- `calculateSlaDeadline` of `src/routes.ts` (lines 30-41): the hour table
`{critical: 24, high: 48, medium: 72, low: 120}[priority] || 72`, applied to
the current time.  The instant `now` that `new Date()` reads inside the
function is passed explicitly. -/
def calculateSlaDeadline (priority : String) (now : Int) : Int :=
  let hours : Int :=
    match priority with
    | "critical" => 24
    | "high" => 48
    | "medium" => 72
    | "low" => 120
    | _ => 72
  now + hours * 60 * 60 * 1000

/-- `getAutoPriority` of `src/routes.ts` (lines 43-52): the category map
`{urgent: critical, academic: high, infrastructure: medium,
administrative: low}[category] || "medium"`. -/
def getAutoPriority (category : String) : String :=
  match category with
  | "urgent" => "critical"
  | "academic" => "high"
  | "infrastructure" => "medium"
  | "administrative" => "low"
  | _ => "medium"

/-- `toUpperCase()` modelled over the string's character list (the runtime
`String.toUpper` has an irreducible implementation). -/
def upper (s : String) : String := String.mk (s.data.map Char.toUpper)

/-- `generateTrackingId` of `src/routes.ts` (lines 54-57), with the two
`nanoid(4)` draws passed explicitly. -/
def generateTrackingId (d1 d2 : String) : String :=
  "GRV-" ++ upper d1 ++ "-" ++ upper d2

/-- `DatabaseStorage.createGrievance`: `insert(grievances).values(...)`.
The insert throws when `category` is outside the `grievance_category` enum
or when the `unique` constraint on `tracking_id` is violated
(`src/schema.ts`); otherwise the row is appended. -/
def createGrievance (store : List Grievance) (g : Grievance) :
    Except String (List Grievance) :=
  if ¬ (g.category ∈ categoryEnum) then
    Except.error "invalid input value for enum grievance_category"
  else if store.any (fun h => h.trackingId = g.trackingId) then
    Except.error "duplicate key value violates unique constraint"
  else
    Except.ok (store ++ [g])

/-- `DatabaseStorage.updateGrievanceStatus` (storage file, lines 146-162):
builds `updateData = { status, updatedAt: now }`, adds `resolvedAt` only
when the argument is present (`if (resolvedAt)`), and applies it to every
row whose id matches.  The update throws when `status` is outside the
`grievance_status` enum.  The application of its `updateData` to one row is
factored out as `applyStatusUpdate`. -/
def applyStatusUpdate (status : String) (resolvedAt : Option Int) (now : Int)
    (g : Grievance) : Grievance :=
  { g with
    status := status
    updatedAt := now
    resolvedAt := match resolvedAt with
      | some r => some r
      | none => g.resolvedAt }

/-- The table-level effect of `DatabaseStorage.updateGrievanceStatus`. -/
def updateGrievanceStatus (store : List Grievance) (id status : String)
    (resolvedAt : Option Int) (now : Int) : Except String (List Grievance) :=
  if ¬ (status ∈ statusEnum) then
    Except.error "invalid input value for enum grievance_status"
  else
    Except.ok (store.map (fun g =>
      if g.id = id then applyStatusUpdate status resolvedAt now g else g))

/-- `DatabaseStorage.updateGrievancePriority` (storage file, lines 164-175):
sets `priority`, `slaDeadline` and `updatedAt` on every row whose id
matches.  The update throws when `priority` is outside the
`grievance_priority` enum.  The `.set(...)` applied to one row is factored
out as `applyPriorityUpdate`. -/
def applyPriorityUpdate (priority : String) (slaDeadline : Int) (now : Int)
    (g : Grievance) : Grievance :=
  { g with
    priority := priority
    slaDeadline := some slaDeadline
    updatedAt := now }

/-- The table-level effect of `DatabaseStorage.updateGrievancePriority`. -/
def updateGrievancePriority (store : List Grievance) (id priority : String)
    (slaDeadline : Int) (now : Int) : Except String (List Grievance) :=
  if ¬ (priority ∈ priorityEnum) then
    Except.error "invalid input value for enum grievance_priority"
  else
    Except.ok (store.map (fun g =>
      if g.id = id then applyPriorityUpdate priority slaDeadline now g else g))

/-- The multipart form fields that `POST /api/grievances` destructures from
`req.body`; `isAnonymous` and `isConfidential` arrive as strings and are
compared against `"true"`. -/
structure SubmitBody where
  title : String
  description : String
  category : String
  isAnonymous : String
  isConfidential : String
deriving Repr, DecidableEq

/-- `POST /api/grievances` (`src/routes.ts`, lines 112-165): resolves the
priority from the category with `getAutoPriority`, computes the SLA deadline
with `calculateSlaDeadline` at the request instant, generates the tracking
id from the first pair of `nanoid(4)` draws, and inserts the grievance in
status `"submitted"` (`createdAt`/`updatedAt` are the database `defaultNow()`
of the same request instant).  Any storage failure is caught and reported as
`500 "Failed to create grievance"`; there is no retry path.  The row passed
to `storage.createGrievance` is factored out as `submittedRow`. -/
def submittedRow (userId : String) (body : SubmitBody) (newId : String)
    (d : String × String) (now : Int) : Grievance :=
  { id := newId
    trackingId := generateTrackingId d.1 d.2
    userId := if body.isAnonymous = "true" then none else some userId
    isAnonymous := body.isAnonymous = "true"
    title := body.title
    description := body.description
    category := body.category
    priority := getAutoPriority body.category
    status := "submitted"
    isConfidential := body.isConfidential = "true"
    slaDeadline := some (calculateSlaDeadline (getAutoPriority body.category) now)
    createdAt := now
    updatedAt := now
    resolvedAt := none }

/-- The handler of `POST /api/grievances`. -/
def grievancesPostRoute (store : List Grievance) (userId : String)
    (body : SubmitBody) (newId : String) (draws : List (String × String))
    (now : Int) : Except (Nat × String) (Grievance × List Grievance) :=
  let g := submittedRow userId body newId (draws.headD ("", "")) now
  match createGrievance store g with
  | Except.error _ => Except.error (500, "Failed to create grievance")
  | Except.ok newStore => Except.ok (g, newStore)

/-- The staff-level role check of the status route:
`["administrator", "staff", "faculty"].includes(user.role)`. -/
def isStaffLevel (role : String) : Bool :=
  ["administrator", "staff", "faculty"].contains role

/-- `PATCH /api/grievances/:id/status` (`src/routes.ts`, lines 226-256):
403 unless the caller's role is administrator/staff/faculty; passes
`resolvedAt = new Date()` to the storage update exactly when the new status
is `"resolved"` or `"closed"` (and `undefined` otherwise); a missing row or
storage failure surfaces as `500 "Failed to update status"` (the handler
dereferences the returned row). -/
def statusPatchRoute (store : List Grievance) (user : Option User)
    (id status : String) (now : Int) :
    Except (Nat × String) (Grievance × List Grievance) :=
  match user with
  | none => Except.error (403, "Forbidden")
  | some u =>
    if isStaffLevel u.role then
      let resolvedAt : Option Int :=
        if status = "resolved" ∨ status = "closed" then some now else none
      match updateGrievanceStatus store id status resolvedAt now with
      | Except.error _ => Except.error (500, "Failed to update status")
      | Except.ok newStore =>
        match newStore.find? (fun g => g.id = id) with
        | none => Except.error (500, "Failed to update status")
        | some g => Except.ok (g, newStore)
    else Except.error (403, "Forbidden")

/-- `PATCH /api/grievances/:id/priority` (`src/routes.ts`, lines 259-289):
403 unless the caller is an administrator; recomputes the SLA deadline with
`calculateSlaDeadline(priority)` at the request instant and delegates to
`updateGrievancePriority`; a missing row or storage failure surfaces as
`500 "Failed to update priority"`. -/
def priorityPatchRoute (store : List Grievance) (user : Option User)
    (id priority : String) (now : Int) :
    Except (Nat × String) (Grievance × List Grievance) :=
  match user with
  | none => Except.error (403, "Forbidden")
  | some u =>
    if u.role = "administrator" then
      let slaDeadline := calculateSlaDeadline priority now
      match updateGrievancePriority store id priority slaDeadline now with
      | Except.error _ => Except.error (500, "Failed to update priority")
      | Except.ok newStore =>
        match newStore.find? (fun g => g.id = id) with
        | none => Except.error (500, "Failed to update priority")
        | some g => Except.ok (g, newStore)
    else Except.error (403, "Forbidden")

/-- The body of `POST /api/grievances/:id/comments`.  The handler
destructures only `content`; an `isInternal` field a client may send is
carried here to show it is ignored. -/
structure CommentBody where
  content : String
  isInternal : Option Bool
deriving Repr, DecidableEq

/-- `POST /api/grievances/:id/comments` (`src/routes.ts`, lines 304-322):
inserts a comment with the authenticated user's id, the body's `content`,
and the hard-coded `isInternal: false`. -/
def commentsPostRoute (store : List CommentRecord) (grievanceId userId : String)
    (body : CommentBody) (newId : String) (now : Int) :
    CommentRecord × List CommentRecord :=
  let comment : CommentRecord :=
    { id := newId
      grievanceId := grievanceId
      userId := userId
      content := body.content
      isInternal := false
      createdAt := now }
  (comment, store ++ [comment])

/-- The scoping step of `DatabaseStorage.getDashboardStats` (storage file,
lines 255-263): the query is restricted to the caller's own grievances
exactly when a user id is given and the role is `"student"`. -/
def scopedGrievances (store : List Grievance) (userId roleArg : Option String) :
    List Grievance :=
  match userId with
  | some uid =>
    if roleArg = some "student" then
      store.filter (fun g => g.userId = some uid)
    else store
  | none => store

/-- The result shape of `getDashboardStats`. -/
structure DashboardStats where
  total : Nat
  pending : Nat
  resolved : Nat
  overdue : Nat
deriving Repr, DecidableEq

/-- `DatabaseStorage.getDashboardStats` (storage file, lines 255-286):
counts over the scoped collection at the request instant `now`:
`pending` filters `!["resolved", "closed"].includes(status)`, `resolved`
filters `status === "resolved" || status === "closed"`, and `overdue`
filters rows with a set `slaDeadline` strictly before `now` that are not
resolved/closed. -/
def getDashboardStats (store : List Grievance) (userId roleArg : Option String)
    (now : Int) : DashboardStats :=
  let allGrievances := scopedGrievances store userId roleArg
  { total := allGrievances.length
    pending := (allGrievances.filter
      (fun g => !(["resolved", "closed"].contains g.status))).length
    resolved := (allGrievances.filter
      (fun g => g.status = "resolved" || g.status = "closed")).length
    overdue := (allGrievances.filter
      (fun g =>
        (match g.slaDeadline with
          | some dl => decide (dl < now)
          | none => false) &&
        !(["resolved", "closed"].contains g.status))).length }

/-- JavaScript `Math.round`: round half toward positive infinity. -/
def jsRound (x : ℚ) : Int := ⌊x + 1 / 2⌋

/-- The `avgResolutionTime` computation of `DatabaseStorage.getAnalytics`
(storage file, lines 324-334): over the grievances that have a resolution
timestamp, `Math.round` of the mean of `(resolvedAt - createdAt)` divided by
`1000 * 60 * 60`; `0` when none are resolved. -/
def avgResolutionTime (allGrievances : List Grievance) : Int :=
  let resolvedGrievances := allGrievances.filter (fun g => g.resolvedAt.isSome)
  if 0 < resolvedGrievances.length then
    jsRound
      ((resolvedGrievances.foldl
        (fun sum g =>
          sum + ((g.resolvedAt.getD 0 - g.createdAt : Int) : ℚ) / (1000 * 60 * 60))
        0) / (resolvedGrievances.length : ℚ))
  else 0

/-- Modelled from the spec (§4.5): the exact arithmetic mean of
`(resolvedAt - createdAt)` in hours over the grievances that have a
resolution timestamp.  Stated from the spec's words for comparison with the
implementation's `avgResolutionTime`. -/
def specMeanResolutionHours (allGrievances : List Grievance) : ℚ :=
  let resolvedGrievances := allGrievances.filter (fun g => g.resolvedAt.isSome)
  ((resolvedGrievances.map
    (fun g => ((g.resolvedAt.getD 0 - g.createdAt : Int) : ℚ) / (1000 * 60 * 60))).sum)
    / (resolvedGrievances.length : ℚ)

/-- Extracts the returned grievance's `resolvedAt` from a route result. -/
def resolvedAtOf (r : Except (Nat × String) (Grievance × List Grievance)) :
    Option (Option Int) :=
  match r with
  | Except.ok p => some p.1.resolvedAt
  | Except.error _ => none

/-- Extracts the stored table from a route result (empty on error). -/
def storeOf (r : Except (Nat × String) (Grievance × List Grievance)) :
    List Grievance :=
  match r with
  | Except.ok p => p.2
  | Except.error _ => []

/-- A sample pending grievance used by the concrete scenarios. -/
def sampleGrievance : Grievance :=
  { id := "g1"
    trackingId := "GRV-AAAA-AAAA"
    userId := some "u1"
    isAnonymous := false
    title := "t"
    description := "d"
    category := "academic"
    priority := "high"
    status := "in_progress"
    isConfidential := false
    slaDeadline := some 172800000
    createdAt := 0
    updatedAt := 0
    resolvedAt := none }

/-- An administrator used by the concrete scenarios. -/
def sampleAdmin : User := { id := "a1", role := "administrator" }

/-- The store after a first resolve of `sampleGrievance` at time 1000. -/
def storeAfterFirstResolve : List Grievance :=
  storeOf (statusPatchRoute [sampleGrievance] (some sampleAdmin) "g1" "resolved" 1000)

/-- A submission body with a category inside the enumeration. -/
def urgentBody : SubmitBody :=
  { title := "t", description := "d", category := "urgent",
    isAnonymous := "false", isConfidential := "false" }

/-- A submission body with a category outside the enumeration. -/
def raggingBody : SubmitBody :=
  { title := "t", description := "d", category := "ragging",
    isAnonymous := "false", isConfidential := "false" }

/-- A submission body used for the tracking-id collision scenario. -/
def academicBody : SubmitBody :=
  { title := "t", description := "d", category := "academic",
    isAnonymous := "false", isConfidential := "false" }

/-- A grievance resolved 10 hours after creation. -/
def resolvedTenHours : Grievance :=
  { sampleGrievance with
    id := "g2"
    trackingId := "GRV-BBBB-BBBB"
    status := "resolved"
    resolvedAt := some 36000000 }

/-- A grievance resolved 20 hours after creation. -/
def resolvedTwentyHours : Grievance :=
  { sampleGrievance with
    id := "g3"
    trackingId := "GRV-CCCC-CCCC"
    status := "resolved"
    resolvedAt := some 72000000 }

/-- A grievance resolved 21 hours after creation. -/
def resolvedTwentyOneHours : Grievance :=
  { sampleGrievance with
    id := "g4"
    trackingId := "GRV-DDDD-DDDD"
    status := "resolved"
    resolvedAt := some 75600000 }

/-! ## Helper lemmas -/

/-- Outside the category enumeration, `getAutoPriority` falls through to the
default branch. -/
lemma getAutoPriority_default (c : String) (hc : c ∉ categoryEnum) :
    getAutoPriority c = "medium" := by
  simp only [categoryEnum, List.mem_cons, List.not_mem_nil, or_false, not_or] at hc
  obtain ⟨h1, h2, h3, h4⟩ := hc
  unfold getAutoPriority
  split
  · exact absurd rfl h4
  · exact absurd rfl h1
  · exact absurd rfl h2
  · exact absurd rfl h3
  · rfl

/-- After an update keyed on `id` is mapped over the table, `find?` (the
`returning()` destructure) yields the updated image of the first row that
matched the id, provided the update preserves the id and some row matches. -/
lemma find_first_updated (store : List Grievance) (id : String)
    (f : Grievance → Grievance) (hf : ∀ g, g.id = id → (f g).id = id)
    (g0 : Grievance) (hg : g0 ∈ store) (hid : g0.id = id) :
    ∃ gPre, gPre ∈ store ∧ gPre.id = id ∧
      ((store.map (fun g => if g.id = id then f g else g)).find?
        (fun g => g.id = id)) = some (f gPre) := by
  induction store with
  | nil => cases hg
  | cons a tl ih =>
    by_cases ha : a.id = id
    · refine ⟨a, List.mem_cons_self a tl, ha, ?_⟩
      simp [List.find?_cons, ha, hf a ha]
    · have hg2 : g0 ∈ tl := by
        rcases List.mem_cons.mp hg with rfl | h
        · exact absurd hid ha
        · exact h
      obtain ⟨gPre, hmem, hidP, heq⟩ := ih hg2
      exact ⟨gPre, List.mem_cons_of_mem a hmem, hidP, by
        simp [List.find?_cons, ha, heq]⟩

/-- The dashboard's pending filter equals the claim-side predicate
status ∉ {resolved, closed}. -/
lemma notResolved_bool (s : String) :
    (!(["resolved", "closed"].contains s))
      = decide (¬ (s = "resolved" ∨ s = "closed")) := by
  by_cases h1 : s = "resolved" <;> by_cases h2 : s = "closed" <;> simp [h1, h2]

/-- The dashboard's resolved filter equals the claim-side predicate
status ∈ {resolved, closed}. -/
lemma resolvedStatus_bool (s : String) :
    ((s = "resolved" || s = "closed") : Bool)
      = decide (s = "resolved" ∨ s = "closed") := by
  by_cases h1 : s = "resolved" <;> by_cases h2 : s = "closed" <;> simp [h1, h2]

/-- The dashboard's overdue filter equals the claim-side predicate: the SLA
deadline is set and earlier than now, and the status is not resolved/closed. -/
lemma overdue_bool (o : Option Int) (s : String) (now : Int) :
    ((match o with | some dl => decide (dl < now) | none => false) &&
      !(["resolved", "closed"].contains s))
    = decide ((∃ dl ∈ o, dl < now) ∧ ¬ (s = "resolved" ∨ s = "closed")) := by
  cases o <;> by_cases h1 : s = "resolved" <;> by_cases h2 : s = "closed" <;>
    simp [h1, h2]

/-- A left fold accumulating `+ f g` is the sum of the mapped list. -/
lemma foldl_add_map (f : Grievance → ℚ) (xs : List Grievance) :
    ∀ a : ℚ, xs.foldl (fun s g => s + f g) a = a + (xs.map f).sum := by
  induction xs with
  | nil => intro a; simp
  | cons x tl ih => intro a; simp [ih, add_assoc]

/-! ## Claim theorems -/

/-- C6: `getAutoPriority` is total over strings: it returns exactly the
documented mapping urgent↦critical, academic↦high, infrastructure↦medium,
administrative↦low on the category enumeration, and medium on every string
outside it. -/
theorem getAutoPriority_total_mapping :
    getAutoPriority "urgent" = "critical" ∧
    getAutoPriority "academic" = "high" ∧
    getAutoPriority "infrastructure" = "medium" ∧
    getAutoPriority "administrative" = "low" ∧
    ∀ c : String, c ∉ categoryEnum → getAutoPriority c = "medium" :=
  ⟨rfl, rfl, rfl, rfl, fun c hc => getAutoPriority_default c hc⟩

/-- Witness for C6 at the out-of-enumeration category "hostel". -/
theorem getAutoPriority_total_mapping_witness :
    "hostel" ∉ categoryEnum ∧ getAutoPriority "hostel" = "medium" :=
  ⟨by decide, getAutoPriority_total_mapping.2.2.2.2 "hostel" (by decide)⟩

/-- C7: `calculateSlaDeadline p t = t + offset p` where the offset is exactly
24h for critical, 48h for high, 72h for medium, 120h for low, and 72h for
every priority string outside the enumeration. -/
theorem calculateSlaDeadline_offset_table :
    (∀ t : Int,
      calculateSlaDeadline "critical" t = t + 24 * (60 * 60 * 1000) ∧
      calculateSlaDeadline "high" t = t + 48 * (60 * 60 * 1000) ∧
      calculateSlaDeadline "medium" t = t + 72 * (60 * 60 * 1000) ∧
      calculateSlaDeadline "low" t = t + 120 * (60 * 60 * 1000)) ∧
    ∀ p : String, p ∉ priorityEnum →
      ∀ t : Int, calculateSlaDeadline p t = t + 72 * (60 * 60 * 1000) := by
  constructor
  · intro t
    refine ⟨?_, ?_, ?_, ?_⟩ <;> simp [calculateSlaDeadline]
  · intro p hp t
    simp only [priorityEnum, List.mem_cons, List.not_mem_nil, or_false, not_or] at hp
    obtain ⟨h1, h2, h3, h4⟩ := hp
    unfold calculateSlaDeadline
    split
    · exact absurd rfl h4
    · exact absurd rfl h3
    · exact absurd rfl h2
    · exact absurd rfl h1
    · ring

/-- Witness for C7 at the out-of-enumeration priority "urgent" and t = 5. -/
theorem calculateSlaDeadline_offset_table_witness :
    "urgent" ∉ priorityEnum ∧
    calculateSlaDeadline "urgent" 5 = 5 + 72 * (60 * 60 * 1000) :=
  ⟨by decide, calculateSlaDeadline_offset_table.2 "urgent" (by decide) 5⟩

/-- C1: a submission whose category lies in the category enumeration (and
whose fresh tracking id does not collide) persists a grievance in status
`"submitted"` whose SLA deadline is `calculateSlaDeadline` of
`getAutoPriority category` at the creation instant; in particular category
`"urgent"` yields priority `"critical"` and deadline `createdAt + 24h`. -/
theorem grievancesPost_submit_sla (store : List Grievance) (userId : String)
    (body : SubmitBody) (newId : String) (d : String × String)
    (rest : List (String × String)) (now : Int)
    (hcat : body.category ∈ categoryEnum)
    (hfresh : store.any
      (fun h => h.trackingId = generateTrackingId d.1 d.2) = false) :
    ∃ g newStore,
      grievancesPostRoute store userId body newId (d :: rest) now =
        Except.ok (g, newStore) ∧
      g.status = "submitted" ∧
      g.createdAt = now ∧
      g.slaDeadline =
        some (calculateSlaDeadline (getAutoPriority body.category) g.createdAt) ∧
      g ∈ newStore ∧
      (body.category = "urgent" →
        g.priority = "critical" ∧
        g.slaDeadline = some (now + 24 * (60 * 60 * 1000))) := by
  refine ⟨submittedRow userId body newId d now,
    store ++ [submittedRow userId body newId d now], ?_, ?_, ?_, ?_, ?_, ?_⟩
  · simp only [grievancesPostRoute, createGrievance, List.headD_cons, submittedRow]
    rw [if_neg (not_not_intro hcat)]
    rw [if_neg (by simp [hfresh])]
  · rfl
  · rfl
  · rfl
  · simp
  · intro hu
    refine ⟨?_, ?_⟩
    · simp [submittedRow, hu, getAutoPriority]
    · simp only [submittedRow, hu, getAutoPriority, calculateSlaDeadline]
      norm_num

/-- A concrete urgent submission at time 0 exercising C1. -/
theorem grievancesPost_submit_sla_witness :
    urgentBody.category ∈ categoryEnum ∧
    ([] : List Grievance).any
      (fun h => h.trackingId = generateTrackingId "aaaa" "bbbb") = false ∧
    ∃ g newStore,
      grievancesPostRoute [] "u1" urgentBody "g1" [("aaaa", "bbbb")] 0 =
        Except.ok (g, newStore) ∧
      g.status = "submitted" ∧
      g.createdAt = 0 ∧
      g.slaDeadline =
        some (calculateSlaDeadline (getAutoPriority urgentBody.category) g.createdAt) ∧
      g ∈ newStore ∧
      (urgentBody.category = "urgent" →
        g.priority = "critical" ∧
        g.slaDeadline = some (0 + 24 * (60 * 60 * 1000))) :=
  ⟨by decide, rfl,
    grievancesPost_submit_sla [] "u1" urgentBody "g1" ("aaaa", "bbbb") [] 0
      (by decide) rfl⟩

/-- C5: an administrator's priority change on an existing grievance sets the
SLA deadline to the call instant `now` plus the 24/48/72/120-hour offset of
the new priority — a formula in `now` alone, independent of the grievance's
creation or submission time. -/
theorem priorityPatch_recomputes_sla (store : List Grievance) (u : User)
    (id p : String) (now : Int)
    (hrole : u.role = "administrator") (hp : p ∈ priorityEnum)
    (g0 : Grievance) (hg : g0 ∈ store) (hid : g0.id = id) :
    ∃ gOut newStore,
      priorityPatchRoute store (some u) id p now = Except.ok (gOut, newStore) ∧
      gOut.slaDeadline =
        some (now +
          (if p = "critical" then 24 else if p = "high" then 48
           else if p = "medium" then 72 else 120) * (60 * 60 * 1000)) ∧
      gOut.priority = p ∧ gOut.updatedAt = now := by
  obtain ⟨gPre, hmem, hidP, heq⟩ := find_first_updated store id
    (applyPriorityUpdate p (calculateSlaDeadline p now) now) (fun g h => h)
    g0 hg hid
  refine ⟨applyPriorityUpdate p (calculateSlaDeadline p now) now gPre,
    store.map (fun g =>
      if g.id = id then applyPriorityUpdate p (calculateSlaDeadline p now) now g
      else g), ?_, ?_, ?_, ?_⟩
  · have hupd : updateGrievancePriority store id p (calculateSlaDeadline p now) now =
        Except.ok (store.map (fun g =>
          if g.id = id then applyPriorityUpdate p (calculateSlaDeadline p now) now g
          else g)) := by
      simp only [updateGrievancePriority]
      rw [if_neg (not_not_intro hp)]
    simp only [priorityPatchRoute]
    rw [if_pos hrole]
    simp only [hupd, heq]
  · simp only [applyPriorityUpdate]
    have hp2 : p = "low" ∨ p = "medium" ∨ p = "high" ∨ p = "critical" := by
      simpa [priorityEnum] using hp
    rcases hp2 with rfl | rfl | rfl | rfl <;> simp [calculateSlaDeadline]
  · rfl
  · rfl

/-- A concrete administrator re-prioritization to "low" at time 1000
exercising C5: the new deadline is 1000 + 120h. -/
theorem priorityPatch_recomputes_sla_witness :
    sampleAdmin.role = "administrator" ∧ "low" ∈ priorityEnum ∧
    sampleGrievance ∈ [sampleGrievance] ∧ sampleGrievance.id = "g1" ∧
    ∃ gOut newStore,
      priorityPatchRoute [sampleGrievance] (some sampleAdmin) "g1" "low" 1000 =
        Except.ok (gOut, newStore) ∧
      gOut.slaDeadline =
        some (1000 +
          (if ("low" : String) = "critical" then 24
           else if ("low" : String) = "high" then 48
           else if ("low" : String) = "medium" then 72 else 120) *
            (60 * 60 * 1000)) ∧
      gOut.priority = "low" ∧ gOut.updatedAt = 1000 :=
  ⟨rfl, by decide, by simp, rfl,
    priorityPatch_recomputes_sla [sampleGrievance] sampleAdmin "g1" "low" 1000
      rfl (by decide) sampleGrievance (by simp) rfl⟩

/-- C2 counterexample: resolving the same grievance twice moves
`resolvedAt`.  A first resolve at time 1000 stores `resolvedAt = 1000`; a
second resolve of the already-resolved grievance at time 2000 overwrites it
with 2000, so `setStatus` is not idempotent on `resolvedAt`. -/
theorem statusPatch_second_resolve_moves_resolvedAt :
    resolvedAtOf
        (statusPatchRoute [sampleGrievance] (some sampleAdmin) "g1" "resolved" 1000)
      = some (some 1000) ∧
    resolvedAtOf
        (statusPatchRoute storeAfterFirstResolve (some sampleAdmin) "g1" "resolved" 2000)
      = some (some 2000) ∧
    (some (2000 : Int) : Option Int) ≠ some 1000 :=
  ⟨rfl, rfl, by decide⟩

/-- C2 amended: every `setStatus` call whose new status is resolved or
closed sets `resolvedAt` to the call time — overwriting any earlier value,
so a second resolve moves the timestamp — while a call with any other
status leaves `resolvedAt` unchanged (it is never cleared). -/
theorem statusPatch_resolvedAt_behaviour (store : List Grievance) (u : User)
    (id status : String) (now : Int)
    (hrole : isStaffLevel u.role = true) (hst : status ∈ statusEnum)
    (g0 : Grievance) (hg : g0 ∈ store) (hid : g0.id = id) :
    ∃ gOut gPre newStore, gPre ∈ store ∧ gPre.id = id ∧
      statusPatchRoute store (some u) id status now =
        Except.ok (gOut, newStore) ∧
      gOut.status = status ∧ gOut.updatedAt = now ∧
      gOut.resolvedAt =
        (if status = "resolved" ∨ status = "closed" then some now
         else gPre.resolvedAt) := by
  obtain ⟨gPre, hmem, hidP, heq⟩ := find_first_updated store id
    (applyStatusUpdate status
      (if status = "resolved" ∨ status = "closed" then some now else none) now)
    (fun g h => h) g0 hg hid
  refine ⟨applyStatusUpdate status
      (if status = "resolved" ∨ status = "closed" then some now else none) now gPre,
    gPre,
    store.map (fun g =>
      if g.id = id then
        applyStatusUpdate status
          (if status = "resolved" ∨ status = "closed" then some now else none)
          now g
      else g),
    hmem, hidP, ?_, ?_, ?_, ?_⟩
  · have hupd : updateGrievanceStatus store id status
        (if status = "resolved" ∨ status = "closed" then some now else none) now =
        Except.ok (store.map (fun g =>
          if g.id = id then
            applyStatusUpdate status
              (if status = "resolved" ∨ status = "closed" then some now else none)
              now g
          else g)) := by
      simp only [updateGrievanceStatus]
      rw [if_neg (not_not_intro hst)]
    simp only [statusPatchRoute]
    rw [if_pos hrole]
    simp only [hupd, heq]
  · rfl
  · rfl
  · by_cases hres : status = "resolved" ∨ status = "closed" <;>
      simp [applyStatusUpdate, hres]

/-- A concrete staff resolve at time 1000 exercising the amended C2. -/
theorem statusPatch_resolvedAt_behaviour_witness :
    isStaffLevel sampleAdmin.role = true ∧ "resolved" ∈ statusEnum ∧
    sampleGrievance ∈ [sampleGrievance] ∧ sampleGrievance.id = "g1" ∧
    ∃ gOut gPre newStore, gPre ∈ [sampleGrievance] ∧ gPre.id = "g1" ∧
      statusPatchRoute [sampleGrievance] (some sampleAdmin) "g1" "resolved" 1000 =
        Except.ok (gOut, newStore) ∧
      gOut.status = "resolved" ∧ gOut.updatedAt = 1000 ∧
      gOut.resolvedAt =
        (if ("resolved" : String) = "resolved" ∨ ("resolved" : String) = "closed"
         then some 1000 else gPre.resolvedAt) :=
  ⟨rfl, by decide, by simp, rfl,
    statusPatch_resolvedAt_behaviour [sampleGrievance] sampleAdmin "g1"
      "resolved" 1000 rfl (by decide) sampleGrievance (by simp) rfl⟩

/-- C3 counterexample: a submission with the out-of-enumeration category
"ragging" does not fail with a ValidationError (the boundary's 400): the
handler performs no validation, computes the defaulted priority medium, and
the attempted insert surfaces as the generic 500 failure. -/
theorem submit_invalid_category_not_validation_error :
    getAutoPriority raggingBody.category = "medium" ∧
    grievancesPostRoute [] "u1" raggingBody "g1" [("aaaa", "bbbb")] 0 =
      Except.error (500, "Failed to create grievance") ∧
    (500 : Nat) ≠ 400 :=
  ⟨rfl, rfl, by decide⟩

/-- C3 amended: `submit` does not validate the category itself.  For every
input whose category is outside the enumeration, the handler resolves the
defaulted priority medium and attempts the insert; the database enum
constraint rejects the row and the route reports the generic
`500 "Failed to create grievance"`, not a ValidationError. -/
theorem submit_skips_category_validation (store : List Grievance)
    (userId : String) (body : SubmitBody) (newId : String)
    (draws : List (String × String)) (now : Int)
    (hcat : body.category ∉ categoryEnum) :
    getAutoPriority body.category = "medium" ∧
    grievancesPostRoute store userId body newId draws now =
      Except.error (500, "Failed to create grievance") := by
  refine ⟨getAutoPriority_default body.category hcat, ?_⟩
  simp only [grievancesPostRoute, createGrievance, submittedRow]
  rw [if_pos hcat]

/-- Witness for the amended C3 at the concrete category "ragging". -/
theorem submit_skips_category_validation_witness :
    raggingBody.category ∉ categoryEnum ∧
    (getAutoPriority raggingBody.category = "medium" ∧
     grievancesPostRoute [] "u1" raggingBody "g1" [("aaaa", "bbbb")] 0 =
       Except.error (500, "Failed to create grievance")) :=
  ⟨by decide,
    submit_skips_category_validation [] "u1" raggingBody "g1"
      [("aaaa", "bbbb")] 0 (by decide)⟩

/-- C4 counterexample: when the first generated tracking id collides with a
persisted one, the submission fails immediately with the generic 500 error
even though a second draw (`"BBBB"`) is available and would have succeeded —
there is no retry and no ConflictError. -/
theorem submit_fails_on_first_collision :
    grievancesPostRoute [sampleGrievance] "u9" academicBody "g9"
        [("AAAA", "AAAA"), ("BBBB", "BBBB")] 0 =
      Except.error (500, "Failed to create grievance") ∧
    ∃ g newStore,
      grievancesPostRoute [sampleGrievance] "u9" academicBody "g9"
          [("BBBB", "BBBB")] 0 = Except.ok (g, newStore) :=
  ⟨rfl, _, _, rfl⟩

/-- C4 amended: the tracking-id generator is drawn exactly once per
submission, with no collision check against the store and no retry: when the
first draw collides with a persisted tracking id the submission fails at
once with the generic 500 failure, and the outcome never depends on any
later draw in the stream. -/
theorem submit_no_tracking_retry (store : List Grievance) (userId : String)
    (body : SubmitBody) (newId : String) (c : String × String)
    (rest rest2 : List (String × String)) (now : Int)
    (hcoll : ∃ g ∈ store, g.trackingId = generateTrackingId c.1 c.2) :
    grievancesPostRoute store userId body newId (c :: rest) now =
      Except.error (500, "Failed to create grievance") ∧
    grievancesPostRoute store userId body newId (c :: rest) now =
      grievancesPostRoute store userId body newId (c :: rest2) now := by
  constructor
  · simp only [grievancesPostRoute, createGrievance, submittedRow,
      List.headD_cons]
    by_cases hcat : body.category ∈ categoryEnum
    · rw [if_neg (not_not_intro hcat)]
      rw [if_pos ?hany]
      case hany =>
        obtain ⟨g, hgmem, htid⟩ := hcoll
        exact List.any_eq_true.mpr ⟨g, hgmem, by simp [htid]⟩
    · rw [if_pos hcat]
  · rfl

/-- Witness for the amended C4: the store already holds tracking id
`GRV-AAAA-AAAA` and the first draw regenerates exactly that id. -/
theorem submit_no_tracking_retry_witness :
    (∃ g ∈ [sampleGrievance], g.trackingId = generateTrackingId "AAAA" "AAAA") ∧
    (grievancesPostRoute [sampleGrievance] "u9" academicBody "g9"
        [("AAAA", "AAAA"), ("BBBB", "BBBB")] 0 =
      Except.error (500, "Failed to create grievance") ∧
     grievancesPostRoute [sampleGrievance] "u9" academicBody "g9"
        [("AAAA", "AAAA"), ("BBBB", "BBBB")] 0 =
      grievancesPostRoute [sampleGrievance] "u9" academicBody "g9"
        [("AAAA", "AAAA"), ("CCCC", "CCCC")] 0) :=
  ⟨⟨sampleGrievance, by simp, rfl⟩,
    submit_no_tracking_retry [sampleGrievance] "u9" academicBody "g9"
      ("AAAA", "AAAA") [("BBBB", "BBBB")] [("CCCC", "CCCC")] 0
      ⟨sampleGrievance, by simp, rfl⟩⟩

/-- C10: every comment created through the public add-comment endpoint is
persisted with `isInternal = false`, whatever the request body (including a
client-supplied `isInternal` field): the returned comment is non-internal,
it is persisted, and every comment in the store afterwards is either
pre-existing or non-internal. -/
theorem commentsPost_never_internal (store : List CommentRecord)
    (grievanceId userId : String) (body : CommentBody) (newId : String)
    (now : Int) :
    (commentsPostRoute store grievanceId userId body newId now).1.isInternal
        = false ∧
    (commentsPostRoute store grievanceId userId body newId now).1 ∈
      (commentsPostRoute store grievanceId userId body newId now).2 ∧
    ∀ c ∈ (commentsPostRoute store grievanceId userId body newId now).2,
      c ∈ store ∨ c.isInternal = false := by
  refine ⟨rfl, by simp [commentsPostRoute], ?_⟩
  intro c hc
  rcases List.mem_append.mp hc with h | h
  · exact Or.inl h
  · right
    rcases List.mem_singleton.mp h with rfl
    rfl

/-- C8: `getDashboardStats` returns, over the scoped collection: `total` =
its size, `pending` = the count of grievances whose status is not in
{resolved, closed}, `resolved` = the count whose status is in
{resolved, closed}, `overdue` = the count of grievances that are pending and
whose SLA deadline is set and earlier than `now`; on an empty collection all
four are 0. -/
theorem getDashboardStats_counts (store : List Grievance)
    (userId roleArg : Option String) (now : Int) :
    (getDashboardStats store userId roleArg now).total =
      (scopedGrievances store userId roleArg).length ∧
    (getDashboardStats store userId roleArg now).pending =
      (scopedGrievances store userId roleArg).countP
        (fun g => decide (¬ (g.status = "resolved" ∨ g.status = "closed"))) ∧
    (getDashboardStats store userId roleArg now).resolved =
      (scopedGrievances store userId roleArg).countP
        (fun g => decide (g.status = "resolved" ∨ g.status = "closed")) ∧
    (getDashboardStats store userId roleArg now).overdue =
      (scopedGrievances store userId roleArg).countP
        (fun g => decide ((∃ dl ∈ g.slaDeadline, dl < now) ∧
          ¬ (g.status = "resolved" ∨ g.status = "closed"))) ∧
    getDashboardStats [] userId roleArg now =
      { total := 0, pending := 0, resolved := 0, overdue := 0 } := by
  refine ⟨rfl, ?_, ?_, ?_, ?_⟩
  · show (List.filter _ _).length = _
    rw [List.countP_eq_length_filter]
    congr 1
    apply List.filter_congr
    intro g _
    exact notResolved_bool g.status
  · show (List.filter _ _).length = _
    rw [List.countP_eq_length_filter]
    congr 1
    apply List.filter_congr
    intro g _
    exact resolvedStatus_bool g.status
  · show (List.filter _ _).length = _
    rw [List.countP_eq_length_filter]
    congr 1
    apply List.filter_congr
    intro g _
    exact overdue_bool g.slaDeadline g.status now
  · cases userId with
    | none => rfl
    | some uid =>
      by_cases hr : roleArg = some "student" <;>
        simp [getDashboardStats, scopedGrievances, hr]

/-- C9 counterexample: over two grievances resolved 10 and 21 hours after
creation, the exact arithmetic mean is 15.5 hours, but the implementation
returns the rounded value 16, so `avgResolutionTime` does not equal the
arithmetic mean. -/
theorem avgResolutionTime_not_exact_mean :
    avgResolutionTime [resolvedTenHours, resolvedTwentyOneHours] = 16 ∧
    specMeanResolutionHours [resolvedTenHours, resolvedTwentyOneHours] = 31 / 2 ∧
    ((avgResolutionTime [resolvedTenHours, resolvedTwentyOneHours] : ℚ) ≠
      specMeanResolutionHours [resolvedTenHours, resolvedTwentyOneHours]) := by
  have h1 : avgResolutionTime [resolvedTenHours, resolvedTwentyOneHours] = 16 := by
    simp only [avgResolutionTime, jsRound, resolvedTenHours, resolvedTwentyOneHours,
      sampleGrievance, List.filter, List.foldl, List.length]
    norm_num
  have h2 : specMeanResolutionHours [resolvedTenHours, resolvedTwentyOneHours]
      = 31 / 2 := by
    simp only [specMeanResolutionHours, resolvedTenHours, resolvedTwentyOneHours,
      sampleGrievance, List.filter, List.map, List.length]
    norm_num
  refine ⟨h1, h2, ?_⟩
  rw [h1, h2]
  norm_num

/-- C9 amended: `avgResolutionTime` equals the arithmetic mean of
`(resolvedAt − createdAt)` in hours over the grievances that have a
resolution timestamp, rounded to the nearest integer (`Math.round`), and is
0 when no grievance has one; the spec's scenario (3 grievances, 2 resolved
at 10h and 20h) still yields 15 because that mean is integral. -/
theorem avgResolutionTime_rounded_mean (l : List Grievance) :
    avgResolutionTime l =
      (if (l.filter (fun g => g.resolvedAt.isSome)).length = 0 then 0
       else jsRound (specMeanResolutionHours l)) ∧
    avgResolutionTime [sampleGrievance, resolvedTenHours, resolvedTwentyHours]
      = 15 := by
  constructor
  · by_cases h : (l.filter (fun g => g.resolvedAt.isSome)).length = 0
    · simp [avgResolutionTime, h]
    · have hpos : 0 < (l.filter (fun g => g.resolvedAt.isSome)).length :=
        Nat.pos_of_ne_zero h
      rw [if_neg h]
      simp only [avgResolutionTime, specMeanResolutionHours, if_pos hpos]
      rw [foldl_add_map
        (fun g => ((g.resolvedAt.getD 0 - g.createdAt : Int) : ℚ) / (1000 * 60 * 60))]
      rw [zero_add]
  · simp only [avgResolutionTime, jsRound, sampleGrievance, resolvedTenHours,
      resolvedTwentyHours, List.filter, List.foldl, List.length]
    norm_num
